import Mathlib

/-!
Verification of the resilient request dispatcher implemented in
src/frontend/src/api/apiConfig.js: a per-endpoint circuit breaker, a
sliding-window throttle, a TTL response cache, exponential-backoff retries
and fallback substitution, composed around a single axios call.

The shallow embedding below translates that file into pure Lean functions.
State that the JavaScript mutates in place (the circuitBreakers object, the
recentCalls object and the responseCache map) is threaded explicitly as a
DispState record of association lists.  A whole logical call through the
axios instance (request interceptor, network attempt, response interceptor
with its internal retry loop) is the function dispatch; the request
interceptor alone is the function requestInterceptor, so that interleavings
of two in-flight calls can be examined.  Timestamps are a single Nat taken
for Date.now() during the call.  The network is a parameter
net : Nat -> NetResult giving the outcome of each raw axios attempt
(attempt 0 is the original call, attempts 1..3 are the retryRequest calls,
which in the source use the bare axios function and therefore bypass both
interceptors).
-/

namespace ApiConfig

/-- Constants from apiConfig.js lines 19-24 and 36. -/
def THROTTLE_WINDOW : Nat := 1000

def MAX_CALLS_PER_WINDOW : Nat := 10

def CIRCUIT_BREAKER_THRESHOLD : Nat := 5

def CIRCUIT_BREAKER_TIMEOUT : Nat := 30000

def RETRY_ATTEMPTS : Nat := 3

def CACHE_TTL : Nat := 300000

/-- CIRCUIT_STATES (apiConfig.js lines 27-31). -/
inductive CircuitSt where
  | CLOSED
  | OPEN
  | HALF_OPEN
deriving Repr, DecidableEq

def circuitStateName : CircuitSt → String
  | .CLOSED => "CLOSED"
  | .OPEN => "OPEN"
  | .HALF_OPEN => "HALF_OPEN"

/-- A response body.  The fields the dispatcher itself reads or writes
(success, message, fromCache, cacheAge, fallback, endpoint, timestamp) are
explicit; every other part of a JSON body (data array, pagination, ...) is
abstracted into the opaque field body, so that distinct payloads stay
distinguishable.  A JavaScript object spread such as
\x7b...cached.data, fromCache: true\x7d becomes a record update. -/
structure Payload where
  success : Option Bool := none
  message : Option String := none
  fromCache : Bool := false
  cacheAge : Option Nat := none
  fallback : Bool := false
  endpoint : Option String := none
  timestamp : Option Nat := none
  body : Nat := 0
deriving Repr, DecidableEq

/-- An axios-style response object as far as the dispatcher inspects it. -/
structure Response where
  data : Payload
  status : Option Nat := none
  statusText : Option String := none
deriving Repr, DecidableEq

/-- One entry of the circuitBreakers object (apiConfig.js lines 62-67). -/
structure Breaker where
  bstate : CircuitSt
  failureCount : Nat
  lastFailureTime : Option Nat
  lastSuccessTime : Option Nat
deriving Repr, DecidableEq

def initialBreaker : Breaker :=
  { bstate := .CLOSED, failureCount := 0, lastFailureTime := none, lastSuccessTime := none }

/-- One entry of the recentCalls object (apiConfig.js lines 242, 246):
time, count and lastResponse. -/
structure Window where
  time : Nat
  count : Nat
  lastResponse : Option Payload
deriving Repr, DecidableEq

/-- One entry of the responseCache map (apiConfig.js lines 92-97). -/
structure CacheEntry where
  data : Payload
  timestamp : Nat
deriving Repr, DecidableEq

/-- Association-list lookup keyed by strings, standing for property access
on a JavaScript object / Map.get. -/
def getAssoc {β : Type} (k : String) : List (String × β) → Option β
  | [] => none
  | (k2, v) :: rest => if k2 = k then some v else getAssoc k rest

/-- Association-list update, standing for property assignment / Map.set. -/
def setAssoc {β : Type} (k : String) (v : β) : List (String × β) → List (String × β)
  | [] => [(k, v)]
  | (k2, v2) :: rest => if k2 = k then (k, v) :: rest else (k2, v2) :: setAssoc k v rest

/-- The three module-level mutable stores of apiConfig.js, threaded
explicitly: circuitBreakers (line 34), recentCalls (line 18) and
responseCache (line 35). -/
structure DispState where
  circuitBreakers : List (String × Breaker) := []
  recentCalls : List (String × Window) := []
  responseCache : List (String × CacheEntry) := []
deriving Repr, DecidableEq

/-- The read half of getCircuitBreaker (lines 60-70): the entry for the
endpoint, or the freshly created default. -/
def breakerOf (st : DispState) (endpoint : String) : Breaker :=
  (getAssoc endpoint st.circuitBreakers).getD initialBreaker

/-- The write half of getCircuitBreaker: lazily create the entry. -/
def ensureBreaker (st : DispState) (endpoint : String) : DispState :=
  match getAssoc endpoint st.circuitBreakers with
  | some _ => st
  | none => { st with circuitBreakers := setAssoc endpoint initialBreaker st.circuitBreakers }

def setBreaker (st : DispState) (endpoint : String) (b : Breaker) : DispState :=
  { st with circuitBreakers := setAssoc endpoint b st.circuitBreakers }

def setWindow (st : DispState) (endpoint : String) (w : Window) : DispState :=
  { st with recentCalls := setAssoc endpoint w st.recentCalls }

/-- cacheResponse (lines 92-97). -/
def cacheResponse (st : DispState) (cacheKey : String) (d : Payload) (now : Nat) : DispState :=
  { st with responseCache := setAssoc cacheKey { data := d, timestamp := now } st.responseCache }

/-- shouldAttemptReset (lines 73-76).  A null lastFailureTime coerces to 0
in the JavaScript subtraction, hence getD 0; Nat subtraction truncates at 0
exactly where the JavaScript comparison of a negative number is false. -/
def shouldAttemptReset (b : Breaker) (now : Nat) : Bool :=
  decide (b.bstate = .OPEN ∧ CIRCUIT_BREAKER_TIMEOUT < now - b.lastFailureTime.getD 0)

/-- getCachedResponse (lines 79-89). -/
def getCachedResponse (st : DispState) (cacheKey : String) (now : Nat) : Option Payload :=
  match getAssoc cacheKey st.responseCache with
  | some c =>
      if now - c.timestamp < CACHE_TTL then
        some { c.data with fromCache := true, cacheAge := some (now - c.timestamp) }
      else none
  | none => none

/-- Character-list prefix test (for String.prototype.startsWith). -/
def charsLead : List Char → List Char → Bool
  | [], _ => true
  | _ :: _, [] => false
  | a :: as, b :: bs => a = b && charsLead as bs

/-- Character-list containment test (for String.prototype.includes). -/
def charsContain (pat : List Char) : List Char → Bool
  | [] => charsLead pat []
  | c :: rest => charsLead pat (c :: rest) || charsContain pat rest

def strIncludes (s pat : String) : Bool := charsContain pat.data s.data

def strStartsWith (s pat : String) : Bool := charsLead pat.data s.data

/-- Insertion order of the fallbackData object keys (lines 39-57). -/
def fallbackKeys : List String := ["/settings", "/expenses", "/budgets"]

/-- The canned payloads of fallbackData; the distinct body codes stand for
the distinct remaining JSON fields (data array, pagination stub). -/
def fallbackDataFor : String → Payload
  | "/settings" => { success := some true, message := some "Using cached settings data" }
  | "/expenses" => { success := some true, message := some "Using cached expenses data", body := 1 }
  | "/budgets" => { success := some true, message := some "Using cached budgets data", body := 2 }
  | _ => {}

/-- The Object.keys(fallbackData).find(...) search of lines 102-104. -/
def findFallbackKey (endpoint : String) : Option String :=
  fallbackKeys.find? fun k => strIncludes endpoint k || strStartsWith endpoint k

/-- getFallbackResponse (lines 100-133). -/
def getFallbackResponse (endpoint method : String) (now : Nat) : Response :=
  match findFallbackKey endpoint with
  | some k =>
      { data := { fallbackDataFor k with
                    fallback := true, endpoint := some endpoint, timestamp := some now },
        status := some 200, statusText := some "OK (Fallback)" }
  | none =>
      { data := { success := some false,
                  message := some "Service temporarily unavailable. Please try again later.",
                  fallback := true, endpoint := some endpoint, timestamp := some now },
        status := some 503, statusText := some "Service Unavailable (Fallback)" }

/-- Outcome of one raw axios network attempt: either a response, or an
error carrying the optional HTTP status of error.response and whether
error.request exists (transport-level failures have status none). -/
inductive NetResult where
  | ok (data : Payload) (status : Nat)
  | fail (status : Option Nat) (hasRequest : Bool)
deriving Repr, DecidableEq

/-- The retry guard error.response?.status >= 500 && < 600 (lines 141-143);
an absent status compares as false in JavaScript. -/
def is5xx : Option Nat → Bool
  | some s => decide (500 ≤ s) && decide (s < 600)
  | none => false

/-- retryRequest (lines 136-152), fuel-indexed for structural recursion:
the recursion depth is bounded by RETRY_ATTEMPTS because each recursive
call requires attempt < RETRY_ATTEMPTS.  Returns the final NetResult and
the number of raw axios calls made (at least 1). -/
def retryRequestAux (net : Nat → NetResult) : Nat → Nat → NetResult × Nat
  | 0, attempt => (net attempt, 1)
  | fuel + 1, attempt =>
      match net attempt with
      | .ok d s => (.ok d s, 1)
      | .fail status hasRequest =>
          if attempt < RETRY_ATTEMPTS ∧ is5xx status then
            let p := retryRequestAux net fuel (attempt + 1)
            (p.1, p.2 + 1)
          else (.fail status hasRequest, 1)

def retryRequest (net : Nat → NetResult) : NetResult × Nat :=
  retryRequestAux net RETRY_ATTEMPTS 1

/-- Where a resolved dispatch result came from: the plain success path, a
retry success returned from the error handler, or one of the substitution
sites.  This tag only names the program point that built the response and
adds no behaviour. -/
inductive ResOrigin where
  | network
  | retry
  | mockCached
  | mockFallback
  | throttleCached
  | throttleLast
  | deprecated
  | errCached
  | errFallback
deriving Repr, DecidableEq

/-- The normalized rejection object built at lines 407-423 (the fields the
spec names), also covering the Cancel rejection. -/
structure ErrOut where
  status : Option Nat := none
  endpoint : Option String := none
  circuitState : String := "unknown"
  fallbackAttempted : Bool := true
  canceled : Bool := false
deriving Repr, DecidableEq

/-- A dispatch settles either as a resolved response or as a rejection. -/
inductive Outcome where
  | resolved (origin : ResOrigin) (response : Response)
  | rejected (err : ErrOut)
deriving Repr, DecidableEq

/-- What the request interceptor (lines 155-274) does with a call: throw a
__MOCK_RESPONSE__ (returned verbatim by the error interceptor at lines
310-312), throw an axios.Cancel, or let the request proceed to the
network. -/
inductive ReqResult where
  | mock (origin : ResOrigin) (response : Response)
  | cancel
  | proceed
deriving Repr, DecidableEq

/-- The rejection produced from a thrown axios.Cancel: no config, so no
endpoint, circuitState "unknown", fallbackAttempted true (lines 407-423). -/
def cancelErr : ErrOut :=
  { status := none, endpoint := none, circuitState := "unknown",
    fallbackAttempted := true, canceled := true }

/-- The mock payload for the deprecated /settings/defaults endpoint
(lines 250-259); the thrown object has only a data field. -/
def deprecatedPayload : Payload :=
  { success := some true, message := some "Deprecated endpoint - use /settings instead", body := 3 }

/-- The throttling block of the request interceptor (lines 190-247),
returning the updated state and, when the call is short-circuited, the
thrown value. -/
def throttlePhase (st : DispState) (endpoint cacheKey : String) (now : Nat) :
    DispState × Option ReqResult :=
  match getAssoc endpoint st.recentCalls with
  | some w =>
      if now - w.time < THROTTLE_WINDOW then
        let w2 : Window := { w with count := w.count + 1 }
        let st2 := setWindow st endpoint w2
        if MAX_CALLS_PER_WINDOW < w2.count then
          match getCachedResponse st2 cacheKey now with
          | some p =>
              (st2, some (.mock .throttleCached
                { data := p, status := some 200, statusText := some "OK (Cached)" }))
          | none =>
              match w2.lastResponse with
              | some lr =>
                  (st2, some (.mock .throttleLast
                    { data := lr, status := some 200, statusText := some "OK (Throttled Cache)" }))
              | none => (st2, some .cancel)
        else (st2, none)
      else (setWindow st endpoint { time := now, count := 1, lastResponse := none }, none)
  | none => (setWindow st endpoint { time := now, count := 1, lastResponse := none }, none)

/-- The request interceptor (lines 155-274).  Token attachment is an
external collaborator and does not touch the three stores. -/
def requestInterceptor (st0 : DispState) (method endpoint : String) (now : Nat) :
    DispState × ReqResult :=
  let cacheKey := method ++ ":" ++ endpoint
  let st1 := ensureBreaker st0 endpoint
  let breaker := breakerOf st0 endpoint
  if breaker.bstate = .OPEN ∧ shouldAttemptReset breaker now = false then
    match getCachedResponse st1 cacheKey now with
    | some p =>
        (st1, .mock .mockCached { data := p, status := some 200, statusText := some "OK (Cached)" })
    | none => (st1, .mock .mockFallback (getFallbackResponse endpoint method now))
  else
    let st2 :=
      if breaker.bstate = .OPEN then
        setBreaker st1 endpoint { breaker with bstate := .HALF_OPEN }
      else st1
    let tp := throttlePhase st2 endpoint cacheKey now
    match tp.2 with
    | some r => (tp.1, r)
    | none =>
        if endpoint = "/settings/defaults" then
          (tp.1, .mock .deprecated { data := deprecatedPayload })
        else (tp.1, .proceed)

/-- The overall result of a logical call: final store state, the settled
outcome, and how many raw network attempts were made. -/
structure DispatchResult where
  state : DispState
  outcome : Outcome
  netCalls : Nat
deriving Repr, DecidableEq

/-- The success response interceptor (lines 277-307).  The caching guard
at line 297 also tests response.data for truthiness; a JSON object body is
always truthy, so the guard reduces to method and status here. -/
def successHandler (st : DispState) (method endpoint cacheKey : String) (now : Nat)
    (d : Payload) (s : Nat) : DispatchResult :=
  let st1 := ensureBreaker st endpoint
  let breaker := breakerOf st endpoint
  let breaker2 :=
    if breaker.bstate = .HALF_OPEN then
      { breaker with bstate := .CLOSED, failureCount := 0, lastSuccessTime := some now }
    else if breaker.bstate = .CLOSED then
      { breaker with failureCount := 0, lastSuccessTime := some now }
    else breaker
  let st2 := setBreaker st1 endpoint breaker2
  let st3 := if method = "GET" ∧ s = 200 then cacheResponse st2 cacheKey d now else st2
  let st4 :=
    match getAssoc endpoint st3.recentCalls with
    | some w => setWindow st3 endpoint { w with lastResponse := some d }
    | none => st3
  { state := st4,
    outcome := .resolved .network { data := d, status := some s, statusText := none },
    netCalls := 1 }

/-- The normalized rejection (lines 373-423): enhancedError carries the
HTTP status, the endpoint, the current breaker state as a string and the
constant fallbackAttempted flag. -/
def mkReject (st : DispState) (endpoint : String) (status : Option Nat) (netCalls : Nat) :
    DispatchResult :=
  { state := st,
    outcome := .rejected
      { status := status, endpoint := some endpoint,
        circuitState := circuitStateName (breakerOf st endpoint).bstate,
        fallbackAttempted := true, canceled := false },
    netCalls := netCalls }

/-- The fallback section of the error interceptor (lines 344-371) followed
by error normalization.  The condition at line 345 is
error.response?.status >= 500 together with the no-response case; the
cached lookup there ignores the method, but the fallback-data branch is
GET only (line 367). -/
def errorFallback (st : DispState) (method endpoint cacheKey : String) (now : Nat)
    (status : Option Nat) (netCalls : Nat) : DispatchResult :=
  let critical : Bool :=
    match status with
    | some s => decide (500 ≤ s)
    | none => true
  if critical then
    match getCachedResponse st cacheKey now with
    | some p =>
        { state := st,
          outcome := .resolved .errCached
            { data := p, status := some 200, statusText := some "OK (Cached Fallback)" },
          netCalls := netCalls }
    | none =>
        if method = "GET" then
          { state := st,
            outcome := .resolved .errFallback (getFallbackResponse endpoint method now),
            netCalls := netCalls }
        else mkReject st endpoint status netCalls
  else mkReject st endpoint status netCalls

/-- The error response interceptor (lines 308-424) for a genuine network
error (the mock and cancel throws are handled in dispatch): breaker update
(lines 318-332), internal retries through the bare axios client (lines
334-342, bypassing both interceptors), then the fallback section.  A retry
success is returned directly and never reaches the success interceptor. -/
def errorHandler (st : DispState) (method endpoint cacheKey : String) (now : Nat)
    (net : Nat → NetResult) (status : Option Nat) (hasRequest : Bool) : DispatchResult :=
  let st1 := ensureBreaker st endpoint
  let breaker := breakerOf st endpoint
  let isServerError : Bool := match status with | some s => decide (500 ≤ s) | none => false
  let isNetworkError : Bool := status.isNone && hasRequest
  let st2 :=
    if isServerError || isNetworkError then
      let b1 := { breaker with failureCount := breaker.failureCount + 1,
                               lastFailureTime := some now }
      let b2 :=
        if CIRCUIT_BREAKER_THRESHOLD ≤ b1.failureCount then { b1 with bstate := .OPEN } else b1
      setBreaker st1 endpoint b2
    else st1
  if is5xx status then
    match retryRequest net with
    | (.ok d s, n) =>
        { state := st2,
          outcome := .resolved .retry { data := d, status := some s, statusText := none },
          netCalls := 1 + n }
    | (.fail status2 _, n) => errorFallback st2 method endpoint cacheKey now status2 (1 + n)
  else errorFallback st2 method endpoint cacheKey now status 1

/-- The network attempt plus response interceptors for a call the request
interceptor let proceed. -/
def networkPhase (st : DispState) (method endpoint cacheKey : String) (now : Nat)
    (net : Nat → NetResult) : DispatchResult :=
  match net 0 with
  | .ok d s => successHandler st method endpoint cacheKey now d s
  | .fail status hasRequest => errorHandler st method endpoint cacheKey now net status hasRequest

/-- One logical call through the axios instance API: request interceptor,
then either the thrown short-circuit value settling through the error
interceptor (mock responses are returned verbatim, a Cancel rejects), or
the live network phase. -/
def dispatch (st : DispState) (method endpoint : String) (now : Nat)
    (net : Nat → NetResult) : DispatchResult :=
  let ri := requestInterceptor st method endpoint now
  match ri.2 with
  | .mock o r => { state := ri.1, outcome := .resolved o r, netCalls := 0 }
  | .cancel => { state := ri.1, outcome := .rejected cancelErr, netCalls := 0 }
  | .proceed => networkPhase ri.1 method endpoint (method ++ ":" ++ endpoint) now net

/-- Run a sequence of logical calls, threading the stores. -/
def runSeq (st : DispState) : List (String × String × Nat × (Nat → NetResult)) → DispState
  | [] => st
  | (m, ep, now, net) :: rest => runSeq (dispatch st m ep now net).state rest

/-- The throttle admission condition of the request interceptor, as a
standalone predicate: no window yet, or the window expired, or the bumped
count stays within the limit. -/
def windowAdmits (st : DispState) (ep : String) (now : Nat) : Bool :=
  match getAssoc ep st.recentCalls with
  | none => true
  | some w =>
      decide (THROTTLE_WINDOW ≤ now - w.time) || decide (w.count + 1 ≤ MAX_CALLS_PER_WINDOW)

/-! ### Concrete fixtures used by the witnesses and counterexamples -/

def c5st : DispState :=
  { circuitBreakers := [("/settings",
      { bstate := .OPEN, failureCount := 5, lastFailureTime := some 1000,
        lastSuccessTime := none })],
    responseCache := [("GET:/settings", { data := { body := 42 }, timestamp := 500 })] }

def c5p : Payload := { fromCache := true, cacheAge := some 1500, body := 42 }

def c5net : Nat → NetResult := fun _ => NetResult.fail none true

def c8st : DispState :=
  { circuitBreakers := [("/users",
      { bstate := .CLOSED, failureCount := 2, lastFailureTime := some 7,
        lastSuccessTime := some 3 })] }

def c8net : Nat → NetResult := fun _ => NetResult.fail (some 404) true

def c3net : Nat → NetResult := fun _ => NetResult.fail (some 503) true

def c1st : DispState :=
  { circuitBreakers := [("/expenses",
      { bstate := .OPEN, failureCount := 5, lastFailureTime := some 0,
        lastSuccessTime := none })] }

def c1net : Nat → NetResult := fun _ => NetResult.fail (some 500) true

def c2st : DispState := c1st

def c4net : Nat → NetResult :=
  fun i => if i = 0 then .fail (some 500) true else .ok { body := 9 } 200

def c4stw : DispState := { circuitBreakers := [("/data", initialBreaker)] }

def c4netA : Nat → NetResult := fun _ => NetResult.ok { body := 9 } 200

def net404 : Nat → NetResult := fun _ => NetResult.fail (some 404) true

def c6st : DispState :=
  { circuitBreakers := [("/expenses", initialBreaker)],
    recentCalls := [("/expenses", { time := 0, count := 10, lastResponse := some { body := 8 } })] }

def net500 : Nat → NetResult := fun _ => NetResult.fail (some 500) true

def c9breaker : Breaker :=
  { bstate := .CLOSED, failureCount := 3, lastFailureTime := some 0, lastSuccessTime := none }

def c9st : DispState :=
  { circuitBreakers := [("/a", c9breaker)],
    recentCalls := [("/a", { time := 0, count := 1, lastResponse := none })] }

def c9net : Nat → NetResult := fun _ => NetResult.ok { body := 7 } 200

def netU : Nat → NetResult := fun _ => NetResult.fail none false

/-! ### Association-list and store-projection lemmas -/

theorem getAssoc_setAssoc_self {β : Type} (k : String) (v : β) (l : List (String × β)) :
    getAssoc k (setAssoc k v l) = some v := by
  induction l with
  | nil => simp [getAssoc, setAssoc]
  | cons hd tl ih =>
    obtain ⟨k2, v2⟩ := hd
    by_cases h : k2 = k
    · simp [getAssoc, setAssoc, h]
    · simp [getAssoc, setAssoc, h, ih]

theorem getAssoc_setAssoc_ne {β : Type} {k k2 : String} (v : β) (l : List (String × β))
    (h : k2 ≠ k) : getAssoc k2 (setAssoc k v l) = getAssoc k2 l := by
  induction l with
  | nil => simp [getAssoc, setAssoc, Ne.symm h]
  | cons hd tl ih =>
    obtain ⟨k3, v3⟩ := hd
    by_cases h3 : k3 = k
    · subst h3
      simp [getAssoc, setAssoc, Ne.symm h]
    · simp [getAssoc, setAssoc, h3, ih]

theorem setBreaker_responseCache (st : DispState) (ep : String) (b : Breaker) :
    (setBreaker st ep b).responseCache = st.responseCache := rfl

theorem setBreaker_circuitBreakers (st : DispState) (ep : String) (b : Breaker) :
    (setBreaker st ep b).circuitBreakers = setAssoc ep b st.circuitBreakers := rfl

theorem setBreaker_recentCalls (st : DispState) (ep : String) (b : Breaker) :
    (setBreaker st ep b).recentCalls = st.recentCalls := rfl

theorem setWindow_responseCache (st : DispState) (ep : String) (w : Window) :
    (setWindow st ep w).responseCache = st.responseCache := rfl

theorem setWindow_circuitBreakers (st : DispState) (ep : String) (w : Window) :
    (setWindow st ep w).circuitBreakers = st.circuitBreakers := rfl

theorem cacheResponse_circuitBreakers (st : DispState) (k : String) (d : Payload) (now : Nat) :
    (cacheResponse st k d now).circuitBreakers = st.circuitBreakers := rfl

theorem ensureBreaker_responseCache (st : DispState) (ep : String) :
    (ensureBreaker st ep).responseCache = st.responseCache := by
  unfold ensureBreaker; split <;> rfl

theorem ensureBreaker_recentCalls (st : DispState) (ep : String) :
    (ensureBreaker st ep).recentCalls = st.recentCalls := by
  unfold ensureBreaker; split <;> rfl

theorem breakerOf_ensureBreaker (st : DispState) (ep : String) :
    breakerOf (ensureBreaker st ep) ep = breakerOf st ep := by
  unfold ensureBreaker
  split
  · rfl
  · rename_i h
    simp [breakerOf, getAssoc_setAssoc_self, h]

theorem breakerOf_setBreaker_self (st : DispState) (ep : String) (b : Breaker) :
    breakerOf (setBreaker st ep b) ep = b := by
  simp [breakerOf, setBreaker, getAssoc_setAssoc_self]

theorem breakerOf_setWindow (st : DispState) (ep ep2 : String) (w : Window) :
    breakerOf (setWindow st ep w) ep2 = breakerOf st ep2 := rfl

theorem breakerOf_cacheResponse (st : DispState) (k : String) (d : Payload) (now : Nat)
    (ep : String) : breakerOf (cacheResponse st k d now) ep = breakerOf st ep := rfl

theorem ensureBreaker_of_some (st : DispState) (ep : String) (b : Breaker)
    (h : getAssoc ep st.circuitBreakers = some b) : ensureBreaker st ep = st := by
  unfold ensureBreaker
  rw [h]

theorem getCachedResponse_eq_of_cache {stA stB : DispState} (k : String) (now : Nat)
    (h : stA.responseCache = stB.responseCache) :
    getCachedResponse stA k now = getCachedResponse stB k now := by
  unfold getCachedResponse
  rw [h]

/-! ### Phase-level lemmas -/

/-- Every branch of the throttling block only rewrites the window of the
endpoint at hand. -/
theorem throttlePhase_fst (st : DispState) (ep ck : String) (now : Nat) :
    ∃ w, (throttlePhase st ep ck now).1 = setWindow st ep w := by
  unfold throttlePhase
  split
  · split
    · dsimp only
      split
      · split
        · exact ⟨_, rfl⟩
        · split
          · exact ⟨_, rfl⟩
          · exact ⟨_, rfl⟩
      · exact ⟨_, rfl⟩
    · exact ⟨_, rfl⟩
  · exact ⟨_, rfl⟩

theorem throttlePhase_circuitBreakers (st : DispState) (ep ck : String) (now : Nat) :
    (throttlePhase st ep ck now).1.circuitBreakers = st.circuitBreakers := by
  obtain ⟨w, hw⟩ := throttlePhase_fst st ep ck now
  rw [hw]
  rfl

theorem throttlePhase_responseCache (st : DispState) (ep ck : String) (now : Nat) :
    (throttlePhase st ep ck now).1.responseCache = st.responseCache := by
  obtain ⟨w, hw⟩ := throttlePhase_fst st ep ck now
  rw [hw]
  rfl

/-- The state written by the throttling block does not depend on the cache
key, hence not on the HTTP method: the per-endpoint window is keyed by the
URL alone. -/
theorem throttlePhase_fst_ck (st : DispState) (ep ck1 ck2 : String) (now : Nat) :
    (throttlePhase st ep ck1 now).1 = (throttlePhase st ep ck2 now).1 := by
  cases hw : getAssoc ep st.recentCalls with
  | none => simp [throttlePhase, hw]
  | some w =>
    simp only [throttlePhase, hw]
    by_cases hin : now - w.time < THROTTLE_WINDOW
    · simp only [if_pos hin]
      by_cases hc : MAX_CALLS_PER_WINDOW < w.count + 1
      · simp only [hc, if_true]
        cases h1 : getCachedResponse (setWindow st ep { w with count := w.count + 1 })
            ck1 now <;>
        cases h2 : getCachedResponse (setWindow st ep { w with count := w.count + 1 })
            ck2 now <;>
        simp only [h1, h2] <;>
        cases hl : w.lastResponse <;> simp [hl]
      · simp [hc]
    · simp [hin]

/-- The request interceptor never writes the response cache. -/
theorem requestInterceptor_responseCache (st : DispState) (m ep : String) (now : Nat) :
    (requestInterceptor st m ep now).1.responseCache = st.responseCache := by
  unfold requestInterceptor
  dsimp only
  split
  · split <;> exact ensureBreaker_responseCache st ep
  · split
    · rw [throttlePhase_responseCache]
      split <;> simp [setBreaker_responseCache, ensureBreaker_responseCache]
    · split <;>
        · rw [throttlePhase_responseCache]
          split <;> simp [setBreaker_responseCache, ensureBreaker_responseCache]

/-- The request interceptor never changes the failure count of the breaker:
the only breaker write it performs is the OPEN to HALF_OPEN transition. -/
theorem requestInterceptor_failureCount (st : DispState) (m ep : String) (now : Nat) :
    (breakerOf (requestInterceptor st m ep now).1 ep).failureCount
      = (breakerOf st ep).failureCount := by
  unfold requestInterceptor
  dsimp only
  split
  · split <;> rw [breakerOf_ensureBreaker]
  · split
    · obtain ⟨w, hw⟩ := throttlePhase_fst
        (if (breakerOf st ep).bstate = CircuitSt.OPEN then
          setBreaker (ensureBreaker st ep) ep { breakerOf st ep with bstate := .HALF_OPEN }
         else ensureBreaker st ep) ep (m ++ ":" ++ ep) now
      rw [hw, breakerOf_setWindow]
      split <;> simp [breakerOf_setBreaker_self, breakerOf_ensureBreaker]
    · split <;>
        · obtain ⟨w, hw⟩ := throttlePhase_fst
            (if (breakerOf st ep).bstate = CircuitSt.OPEN then
              setBreaker (ensureBreaker st ep) ep { breakerOf st ep with bstate := .HALF_OPEN }
             else ensureBreaker st ep) ep (m ++ ":" ++ ep) now
          rw [hw, breakerOf_setWindow]
          split <;> simp [breakerOf_setBreaker_self, breakerOf_ensureBreaker]

/-- When the breaker for the endpoint exists and is not OPEN, the request
interceptor leaves the whole breaker store untouched. -/
theorem requestInterceptor_breakers_not_open (st : DispState) (m ep : String) (now : Nat)
    (b : Breaker) (hb : getAssoc ep st.circuitBreakers = some b) (ho : b.bstate ≠ .OPEN) :
    (requestInterceptor st m ep now).1.circuitBreakers = st.circuitBreakers := by
  have hbo : breakerOf st ep = b := by simp [breakerOf, hb]
  have hens : ensureBreaker st ep = st := ensureBreaker_of_some st ep b hb
  unfold requestInterceptor
  dsimp only
  rw [hbo, hens, if_neg ho]
  split
  · rename_i hcond
    exact absurd hcond.1 ho
  · split
    · exact throttlePhase_circuitBreakers _ _ _ _
    · split <;> exact throttlePhase_circuitBreakers _ _ _ _

/-- The short-circuit values the throttling block can throw. -/
theorem throttlePhase_snd (st : DispState) (ep ck : String) (now : Nat) (r : ReqResult)
    (h : (throttlePhase st ep ck now).2 = some r) :
    (∃ resp, r = .mock .throttleCached resp) ∨
    (∃ resp, r = .mock .throttleLast resp) ∨ r = .cancel := by
  unfold throttlePhase at h
  revert h
  split
  · dsimp only
    split
    · split
      · split
        · intro h
          exact Or.inl ⟨_, (Option.some.injEq _ _ ▸ h).symm⟩
        · split
          · intro h
            exact Or.inr (Or.inl ⟨_, (Option.some.injEq _ _ ▸ h).symm⟩)
          · intro h
            exact Or.inr (Or.inr (Option.some.inj h).symm)
      · intro h
        cases h
    · intro h
      cases h
  · intro h
    cases h

/-- The request interceptor can only throw the five mock responses built in
the request phase, never the error-path substitutions. -/
theorem requestInterceptor_mock_origin (st : DispState) (m ep : String) (now : Nat)
    (o : ResOrigin) (resp : Response)
    (h : (requestInterceptor st m ep now).2 = .mock o resp) :
    o = .mockCached ∨ o = .mockFallback ∨ o = .throttleCached ∨
    o = .throttleLast ∨ o = .deprecated := by
  unfold requestInterceptor at h
  dsimp only at h
  split at h
  · split at h
    · cases h
      exact Or.inl rfl
    · cases h
      exact Or.inr (Or.inl rfl)
  · split at h
    · rename_i r htp
      dsimp only at h
      subst h
      rcases throttlePhase_snd _ _ _ _ _ htp with ⟨p, hp⟩ | ⟨p, hp⟩ | hp
      · cases hp
        exact Or.inr (Or.inr (Or.inl rfl))
      · cases hp
        exact Or.inr (Or.inr (Or.inr (Or.inl rfl)))
      · cases hp
    · split at h
      · cases h
        exact Or.inr (Or.inr (Or.inr (Or.inr rfl)))
      · cases h

/-- The fallback section of the error interceptor never mutates any store. -/
theorem errorFallback_state (st : DispState) (m ep ck : String) (now : Nat)
    (status : Option Nat) (nc : Nat) :
    (errorFallback st m ep ck now status nc).state = st := by
  unfold errorFallback mkReject
  dsimp only
  split
  · split
    · rfl
    · split <;> rfl
  · rfl

/-- For a non-GET method with no cache entry under its method-qualified
key, the fallback section of the error interceptor degenerates to the
normalized rejection: the error is propagated. -/
theorem errorFallback_not_get (st : DispState) (m ep ck : String) (now : Nat)
    (status : Option Nat) (nc : Nat)
    (hc : getCachedResponse st ck now = none) (hm : m ≠ "GET") :
    errorFallback st m ep ck now status nc = mkReject st ep status nc := by
  unfold errorFallback
  dsimp only
  rw [hc]
  repeat' split
  all_goals simp_all

/-- If no attempt ever succeeds, the retry loop ends in a failure. -/
theorem retryRequestAux_fail (net : Nat → NetResult)
    (hf : ∀ i d s, net i ≠ .ok d s) :
    ∀ fuel a, ∃ s2 h2 n, retryRequestAux net fuel a = (.fail s2 h2, n) := by
  intro fuel
  induction fuel with
  | zero =>
    intro a
    cases hn : net a with
    | ok d s => exact absurd hn (hf a d s)
    | fail s2 h2 => exact ⟨s2, h2, 1, by simp [retryRequestAux, hn]⟩
  | succ fuel ih =>
    intro a
    cases hn : net a with
    | ok d s => exact absurd hn (hf a d s)
    | fail s2 h2 =>
      by_cases hcond : a < RETRY_ATTEMPTS ∧ is5xx s2
      · obtain ⟨s3, h3, n, hrec⟩ := ih (a + 1)
        exact ⟨s3, h3, n + 1, by simp [retryRequestAux, hn, hcond, hrec]⟩
      · exact ⟨s2, h2, 1, by simp [retryRequestAux, hn, hcond]⟩

theorem retryRequest_fail (net : Nat → NetResult)
    (hf : ∀ i d s, net i ≠ .ok d s) :
    ∃ s2 h2 n, retryRequest net = (.fail s2 h2, n) :=
  retryRequestAux_fail net hf RETRY_ATTEMPTS 1

theorem getCachedResponse_fromCache (st : DispState) (k : String) (now : Nat) (p : Payload)
    (h : getCachedResponse st k now = some p) : p.fromCache = true := by
  unfold getCachedResponse at h
  split at h
  · split at h
    · cases h
      rfl
    · cases h
  · cases h

theorem breakerOf_eq_of_breakers {stA stB : DispState} (ep : String)
    (h : stA.circuitBreakers = stB.circuitBreakers) : breakerOf stA ep = breakerOf stB ep := by
  unfold breakerOf
  rw [h]

/-! ### The claims -/

/-- Claim C5: for a GET endpoint holding a cache entry younger than the
TTL, a dispatch issued while the breaker for that endpoint is OPEN and not
yet eligible for reset resolves with the cached payload tagged
fromCache:true, with no network call and no state change. -/
theorem c5_theorem (st : DispState) (ep : String) (now : Nat) (net : Nat → NetResult)
    (b : Breaker) (p : Payload)
    (hb : getAssoc ep st.circuitBreakers = some b)
    (ho : b.bstate = .OPEN)
    (hnr : shouldAttemptReset b now = false)
    (hcache : getCachedResponse st ("GET" ++ ":" ++ ep) now = some p) :
    dispatch st "GET" ep now net =
      { state := st,
        outcome := .resolved .mockCached
          { data := p, status := some 200, statusText := some "OK (Cached)" },
        netCalls := 0 }
    ∧ p.fromCache = true := by
  have hbo : breakerOf st ep = b := by simp [breakerOf, hb]
  have hens : ensureBreaker st ep = st := ensureBreaker_of_some st ep b hb
  refine ⟨?_, getCachedResponse_fromCache st _ now p hcache⟩
  unfold dispatch requestInterceptor
  dsimp only
  rw [hbo, hens, if_pos ⟨ho, hnr⟩, hcache]

theorem c5_witness :
    dispatch c5st "GET" "/settings" 2000 c5net =
      { state := c5st,
        outcome := .resolved .mockCached
          { data := c5p, status := some 200, statusText := some "OK (Cached)" },
        netCalls := 0 }
    ∧ c5p.fromCache = true :=
  c5_theorem c5st "/settings" 2000 c5net
    { bstate := .OPEN, failureCount := 5, lastFailureTime := some 1000, lastSuccessTime := none }
    c5p (by decide) (by decide) (by decide) (by decide)

/-- Claim C8: a 4xx error response leaves the endpoint breaker entirely
unchanged (no count increment, no timestamps, no transition), triggers no
retry (exactly one network attempt), and is propagated as the normalized
rejection. -/
theorem c8_theorem (st : DispState) (m ep : String) (now : Nat) (net : Nat → NetResult)
    (b : Breaker) (s : Nat) (hr : Bool)
    (hb : getAssoc ep st.circuitBreakers = some b)
    (ho : b.bstate ≠ .OPEN)
    (hreq : (requestInterceptor st m ep now).2 = .proceed)
    (hnet : net 0 = .fail (some s) hr)
    (h4 : 400 ≤ s ∧ s < 500) :
    (dispatch st m ep now net).state.circuitBreakers = st.circuitBreakers ∧
    (dispatch st m ep now net).netCalls = 1 ∧
    (dispatch st m ep now net).outcome =
      .rejected { status := some s, endpoint := some ep,
                  circuitState := circuitStateName b.bstate,
                  fallbackAttempted := true, canceled := false } := by
  have h5 : ¬ (500 ≤ s) := by omega
  have hbrs : (requestInterceptor st m ep now).1.circuitBreakers = st.circuitBreakers :=
    requestInterceptor_breakers_not_open st m ep now b hb ho
  rcases hri : requestInterceptor st m ep now with ⟨st1, r⟩
  rw [hri] at hreq hbrs
  dsimp only at hreq hbrs
  subst hreq
  have hens : ensureBreaker st1 ep = st1 := by
    apply ensureBreaker_of_some st1 ep b
    rw [hbrs]
    exact hb
  have hbo1 : breakerOf st1 ep = b := by
    unfold breakerOf
    rw [hbrs]
    simp [hb]
  unfold dispatch
  rw [hri]
  dsimp only
  unfold networkPhase
  rw [hnet]
  dsimp only
  unfold errorHandler
  dsimp only
  split
  · rename_i h5t
    exfalso
    revert h5t
    simp [is5xx, decide_eq_false h5]
  · split
    · rename_i hcond
      exfalso
      revert hcond
      simp [decide_eq_false h5]
    · rw [hens]
      unfold errorFallback
      dsimp only
      split
      · rename_i hcrit
        exfalso
        revert hcrit
        simp [decide_eq_false h5]
      · unfold mkReject
        rw [hbo1]
        exact ⟨hbrs, rfl, rfl⟩

theorem c8_witness :
    (dispatch c8st "GET" "/users" 50 c8net).state.circuitBreakers = c8st.circuitBreakers ∧
    (dispatch c8st "GET" "/users" 50 c8net).netCalls = 1 ∧
    (dispatch c8st "GET" "/users" 50 c8net).outcome =
      .rejected { status := some 404, endpoint := some "/users",
                  circuitState := circuitStateName .CLOSED,
                  fallbackAttempted := true, canceled := false } :=
  c8_theorem c8st "GET" "/users" 50 c8net
    { bstate := .CLOSED, failureCount := 2, lastFailureTime := some 7, lastSuccessTime := some 3 }
    404 true (by decide) (by decide) (by decide) rfl (by omega)

/-- Claim C3: a logical call that reaches the network and whose first
attempt fails as a server (5xx) or transport error, with no attempt ever
succeeding, bumps the endpoint breaker failureCount by exactly 1 — once
per logical call, not once per retry attempt.  (The source increments
before retrying, at lines 318-332, and the retries at lines 136-152 go
through the bare axios client, bypassing the interceptors.) -/
theorem c3_theorem (st : DispState) (m ep : String) (now : Nat) (net : Nat → NetResult)
    (s0 : Option Nat) (h0 : Bool)
    (hreq : (requestInterceptor st m ep now).2 = .proceed)
    (hnet : net 0 = .fail s0 h0)
    (hclass : (∃ s, s0 = some s ∧ 500 ≤ s) ∨ (s0 = none ∧ h0 = true))
    (hfail : ∀ i d s, net i ≠ .ok d s) :
    (breakerOf (dispatch st m ep now net).state ep).failureCount
      = (breakerOf st ep).failureCount + 1 := by
  have hcount : (breakerOf (requestInterceptor st m ep now).1 ep).failureCount
      = (breakerOf st ep).failureCount := requestInterceptor_failureCount st m ep now
  rcases hri : requestInterceptor st m ep now with ⟨st1, r⟩
  rw [hri] at hreq hcount
  dsimp only at hreq hcount
  subst hreq
  unfold dispatch
  rw [hri]
  dsimp only
  unfold networkPhase
  rw [hnet]
  dsimp only
  unfold errorHandler
  dsimp only
  rcases hclass with ⟨s, hs, h500⟩ | ⟨hs, hh⟩
  · subst hs
    split
    · -- 5xx: the retries all fail, then the fallback section runs
      obtain ⟨s2, h2, n, hrr⟩ := retryRequest_fail net hfail
      rw [hrr]
      dsimp only
      rw [errorFallback_state]
      split
      · rw [breakerOf_setBreaker_self]
        split <;> simp [hcount]
      · rename_i hcondF
        exfalso
        apply hcondF
        simp [h500]
    · rw [errorFallback_state]
      split
      · rw [breakerOf_setBreaker_self]
        split <;> simp [hcount]
      · rename_i hcondF
        exfalso
        apply hcondF
        simp [h500]
  · subst hs
    subst hh
    split
    · rename_i h5t
      exfalso
      revert h5t
      simp [is5xx]
    · rw [errorFallback_state]
      split
      · rw [breakerOf_setBreaker_self]
        split <;> simp [hcount]
      · rename_i hcondF
        exfalso
        apply hcondF
        simp

theorem c3_witness :
    (breakerOf (dispatch {} "POST" "/expenses" 0 c3net).state "/expenses").failureCount
      = (breakerOf ({} : DispState) "/expenses").failureCount + 1 :=
  c3_theorem {} "POST" "/expenses" 0 c3net (some 503) true (by decide) rfl
    (Or.inl ⟨503, rfl, by omega⟩) (fun i d s h => by simp [c3net] at h)

/-- For a non-GET method whose method-qualified cache key has no valid
entry, the error interceptor never resolves with a substituted payload:
either the retry loop succeeded, or the normalized error is rejected. -/
theorem errorHandler_no_sub (st1 : DispState) (m ep : String) (now : Nat)
    (net : Nat → NetResult) (s0 : Option Nat) (h0 : Bool)
    (hm : m ≠ "GET")
    (hc : getCachedResponse st1 (m ++ ":" ++ ep) now = none) :
    ∀ resp,
      (errorHandler st1 m ep (m ++ ":" ++ ep) now net s0 h0).outcome
        ≠ .resolved .errCached resp ∧
      (errorHandler st1 m ep (m ++ ":" ++ ep) now net s0 h0).outcome
        ≠ .resolved .errFallback resp := by
  intro resp
  unfold errorHandler
  dsimp only
  have hcache2 : ∀ stX : DispState, stX.responseCache = st1.responseCache →
      errorFallback stX m ep (m ++ ":" ++ ep) now s0 (1 : Nat) = mkReject stX ep s0 1 ∧
      ∀ s2 n2, errorFallback stX m ep (m ++ ":" ++ ep) now s2 n2 = mkReject stX ep s2 n2 := by
    intro stX hX
    have hcX : getCachedResponse stX (m ++ ":" ++ ep) now = none := by
      rw [getCachedResponse_eq_of_cache _ _ hX]
      exact hc
    exact ⟨errorFallback_not_get stX m ep _ now s0 1 hcX hm,
      fun s2 n2 => errorFallback_not_get stX m ep _ now s2 n2 hcX hm⟩
  split
  · -- 5xx: retry loop
    rcases hrr : retryRequest net with ⟨res, n⟩
    cases res with
    | ok d s =>
      dsimp only
      constructor <;> intro h <;> simp at h
    | fail s2 h2 =>
      dsimp only
      split
      · rename_i hcond
        rw [(hcache2 _ (by simp [setBreaker_responseCache, ensureBreaker_responseCache])).2 s2 (1 + n)]
        unfold mkReject
        constructor <;> intro h <;> simp at h
      · rw [(hcache2 _ (ensureBreaker_responseCache st1 ep)).2 s2 (1 + n)]
        unfold mkReject
        constructor <;> intro h <;> simp at h
  · split
    · rename_i hcond
      rw [(hcache2 _ (by simp [setBreaker_responseCache, ensureBreaker_responseCache])).2 s0 1]
      unfold mkReject
      constructor <;> intro h <;> simp at h
    · rw [(hcache2 _ (ensureBreaker_responseCache st1 ep)).2 s0 1]
      unfold mkReject
      constructor <;> intro h <;> simp at h

/-- Claim C1 (amended): a mutating request that reaches the network and
fails is never substituted — provided the response cache has no entry
under the mutating method:path key (the dispatcher itself only ever caches
GET responses), the outcome is never a cached or fallback resolution of
the error path.  The claim as originally stated is refuted by
c1_counterexample: a breaker-OPEN short circuit substitutes a fallback
success payload even for POST. -/
theorem c1_amended (st : DispState) (m ep : String) (now : Nat) (net : Nat → NetResult)
    (hm : m ≠ "GET")
    (hc : getCachedResponse st (m ++ ":" ++ ep) now = none) :
    ∀ resp, (dispatch st m ep now net).outcome ≠ .resolved .errCached resp ∧
            (dispatch st m ep now net).outcome ≠ .resolved .errFallback resp := by
  intro resp
  have hcache1 : (requestInterceptor st m ep now).1.responseCache = st.responseCache :=
    requestInterceptor_responseCache st m ep now
  rcases hri : requestInterceptor st m ep now with ⟨st1, r⟩
  rw [hri] at hcache1
  dsimp only at hcache1
  unfold dispatch
  rw [hri]
  dsimp only
  cases r with
  | mock o rr =>
    have horig := requestInterceptor_mock_origin st m ep now o rr (by rw [hri])
    dsimp only
    rcases horig with h1 | h1 | h1 | h1 | h1 <;> subst h1 <;>
      exact ⟨fun h => by simp at h, fun h => by simp at h⟩
  | cancel =>
    exact ⟨fun h => by simp at h, fun h => by simp at h⟩
  | proceed =>
    have hc1 : getCachedResponse st1 (m ++ ":" ++ ep) now = none := by
      rw [getCachedResponse_eq_of_cache _ _ hcache1]
      exact hc
    unfold networkPhase
    cases hn : net 0 with
    | ok d s =>
      dsimp only
      unfold successHandler
      dsimp only
      exact ⟨fun h => by simp at h, fun h => by simp at h⟩
    | fail s0 h0 =>
      dsimp only
      exact errorHandler_no_sub st1 m ep now net s0 h0 hm hc1 resp

/-- Claim C1, counterexample to the claim as stated: with the breaker for
/expenses OPEN and inside the cooldown, a POST /expenses dispatch makes no
network call and resolves with the canned fallback payload — a substituted
success (success := true, fallback := true) for a mutating request. -/
theorem c1_counterexample :
    (dispatch c1st "POST" "/expenses" 1000 c5net).netCalls = 0 ∧
    (dispatch c1st "POST" "/expenses" 1000 c5net).outcome =
      .resolved .mockFallback
        { data := { success := some true, message := some "Using cached expenses data",
                    fallback := true, endpoint := some "/expenses", timestamp := some 1000,
                    body := 1 },
          status := some 200, statusText := some "OK (Fallback)" } := by
  decide

theorem c1_amended_witness :
    (dispatch {} "POST" "/expenses" 0 c1net).outcome
      ≠ .resolved .errCached { data := {}, status := some 200, statusText := none } ∧
    (dispatch {} "POST" "/expenses" 0 c1net).outcome
      ≠ .resolved .errFallback { data := {}, status := some 200, statusText := none } :=
  c1_amended {} "POST" "/expenses" 0 c1net (by decide) (by decide)
    { data := {}, status := some 200, statusText := none }

/-- The breaker store after the success interceptor: the breaker for the
endpoint is rewritten by the success transition, nothing else. -/
theorem successHandler_breakers (st : DispState) (m ep ck : String) (now : Nat)
    (d : Payload) (s : Nat) :
    (successHandler st m ep ck now d s).state.circuitBreakers =
      setAssoc ep
        (if (breakerOf st ep).bstate = .HALF_OPEN then
          { breakerOf st ep with
              bstate := .CLOSED, failureCount := 0, lastSuccessTime := some now }
         else if (breakerOf st ep).bstate = .CLOSED then
          { breakerOf st ep with failureCount := 0, lastSuccessTime := some now }
         else breakerOf st ep)
        (ensureBreaker st ep).circuitBreakers := by
  unfold successHandler
  dsimp only
  split <;> split <;> rfl

/-- Claim C2, counterexample to the claim as stated: with the /expenses
breaker OPEN, failed 30001 ms ago (cooldown 30000 elapsed), a first
request transitions the breaker to HALF_OPEN and proceeds as the probe;
before that probe settles, a second request to the same endpoint also
proceeds to the network, because the interceptor only short-circuits the
OPEN state — the single-probe exclusivity does not hold. -/
theorem c2_counterexample :
    (requestInterceptor c1st "GET" "/expenses" 30001).2 = .proceed ∧
    getAssoc "/expenses" ((requestInterceptor c1st "GET" "/expenses" 30001).1).circuitBreakers
      = some { bstate := .HALF_OPEN, failureCount := 5, lastFailureTime := some 0,
               lastSuccessTime := none } ∧
    (requestInterceptor ((requestInterceptor c1st "GET" "/expenses" 30001).1)
        "GET" "/expenses" 30001).2 = .proceed := by
  decide

/-- Claim C2 (amended): once now - lastFailureTime exceeds the cooldown,
the next request moves the OPEN breaker to HALF_OPEN and proceeds as a
probe; a probe that settles successfully closes the breaker and zeroes the
failure count, and a probe that fails as a server error returns the
breaker to OPEN with lastFailureTime restamped to now (cooldown restart).
Requests arriving while the breaker is HALF_OPEN are, however, not
blocked (see c2_counterexample). -/
theorem c2_amended (st : DispState) (ep : String) (t now : Nat) (b : Breaker)
    (d : Payload) (s : Nat)
    (hb : getAssoc ep st.circuitBreakers = some b)
    (ho : b.bstate = .OPEN)
    (hl : b.lastFailureTime = some t)
    (he : CIRCUIT_BREAKER_TIMEOUT < now - t)
    (hw : getAssoc ep st.recentCalls = none)
    (hdep : ep ≠ "/settings/defaults")
    (hfc : 4 ≤ b.failureCount) :
    (requestInterceptor st "GET" ep now).2 = .proceed ∧
    getAssoc ep ((requestInterceptor st "GET" ep now).1).circuitBreakers
      = some { b with bstate := .HALF_OPEN } ∧
    getAssoc ep ((dispatch st "GET" ep now (fun _ => .ok d s)).state).circuitBreakers
      = some { bstate := .CLOSED, failureCount := 0, lastFailureTime := some t,
               lastSuccessTime := some now } ∧
    getAssoc ep ((dispatch st "GET" ep now
        (fun _ => .fail (some 503) true)).state).circuitBreakers
      = some { bstate := .OPEN, failureCount := b.failureCount + 1,
               lastFailureTime := some now, lastSuccessTime := b.lastSuccessTime } := by
  have hbo : breakerOf st ep = b := by simp [breakerOf, hb]
  have hens : ensureBreaker st ep = st := ensureBreaker_of_some st ep b hb
  have hsar : shouldAttemptReset b now = true := by
    simp [shouldAttemptReset, ho, hl, he]
  have hreqEq : requestInterceptor st "GET" ep now =
      (setWindow (setBreaker st ep { b with bstate := .HALF_OPEN }) ep
        { time := now, count := 1, lastResponse := none }, .proceed) := by
    unfold requestInterceptor
    dsimp only
    rw [hbo, hens]
    rw [if_neg (fun hcon => by rw [hsar] at hcon; exact absurd hcon.2 (by simp))]
    rw [if_pos ho]
    unfold throttlePhase
    rw [setBreaker_recentCalls, hw]
    dsimp only
    rw [if_neg hdep]
  have hbrsR : (setWindow (setBreaker st ep { b with bstate := .HALF_OPEN }) ep
      { time := now, count := 1, lastResponse := none }).circuitBreakers
        = setAssoc ep { b with bstate := .HALF_OPEN } st.circuitBreakers := rfl
  have hgetR : getAssoc ep (setWindow (setBreaker st ep { b with bstate := .HALF_OPEN }) ep
      { time := now, count := 1, lastResponse := none }).circuitBreakers
        = some { b with bstate := .HALF_OPEN } := by
    rw [hbrsR, getAssoc_setAssoc_self]
  have hboR : breakerOf (setWindow (setBreaker st ep { b with bstate := .HALF_OPEN }) ep
      { time := now, count := 1, lastResponse := none }) ep = { b with bstate := .HALF_OPEN } := by
    unfold breakerOf
    rw [hgetR]
    rfl
  have hensR : ensureBreaker (setWindow (setBreaker st ep { b with bstate := .HALF_OPEN }) ep
      { time := now, count := 1, lastResponse := none }) ep
        = setWindow (setBreaker st ep { b with bstate := .HALF_OPEN }) ep
            { time := now, count := 1, lastResponse := none } :=
    ensureBreaker_of_some _ ep _ hgetR
  refine ⟨by rw [hreqEq], by rw [hreqEq, hgetR], ?_, ?_⟩
  · -- probe success: HALF_OPEN closes, counts reset, success stamped
    unfold dispatch
    rw [hreqEq]
    dsimp only
    unfold networkPhase
    dsimp only
    rw [successHandler_breakers, hensR, hboR]
    rw [getAssoc_setAssoc_self]
    simp [hl]
  · -- probe failure: count bumps past the threshold, breaker reopens with
    -- a fresh lastFailureTime
    unfold dispatch
    rw [hreqEq]
    dsimp only
    unfold networkPhase
    dsimp only
    unfold errorHandler
    dsimp only
    split
    · rw [(by rfl : retryRequest (fun _ => NetResult.fail (some 503) true)
          = (NetResult.fail (some 503) true, 3))]
      dsimp only
      rw [errorFallback_state]
      split
      · rw [hensR, hboR, setBreaker_circuitBreakers, getAssoc_setAssoc_self]
        have hthr : CIRCUIT_BREAKER_THRESHOLD ≤ b.failureCount + 1 := by
          unfold CIRCUIT_BREAKER_THRESHOLD
          omega
        simp [hthr]
      · rename_i hcond
        exact absurd (by decide) hcond
    · rename_i h5f
      exact absurd (by decide) h5f

theorem c2_amended_witness :
    (requestInterceptor c2st "GET" "/expenses" 30001).2 = .proceed ∧
    getAssoc "/expenses" ((requestInterceptor c2st "GET" "/expenses" 30001).1).circuitBreakers
      = some { bstate := .HALF_OPEN, failureCount := 5, lastFailureTime := some 0,
               lastSuccessTime := none } ∧
    getAssoc "/expenses" ((dispatch c2st "GET" "/expenses" 30001
        (fun _ => .ok { body := 11 } 200)).state).circuitBreakers
      = some { bstate := .CLOSED, failureCount := 0, lastFailureTime := some 0,
               lastSuccessTime := some 30001 } ∧
    getAssoc "/expenses" ((dispatch c2st "GET" "/expenses" 30001
        (fun _ => .fail (some 503) true)).state).circuitBreakers
      = some { bstate := .OPEN, failureCount := 6,
               lastFailureTime := some 30001, lastSuccessTime := none } :=
  c2_amended c2st "/expenses" 0 30001
    { bstate := .OPEN, failureCount := 5, lastFailureTime := some 0, lastSuccessTime := none }
    { body := 11 } 200
    (by decide) (by decide) (by decide) (by decide) (by decide) (by decide) (by decide)

theorem cacheResponse_responseCache (st : DispState) (k : String) (d : Payload) (now : Nat) :
    (cacheResponse st k d now).responseCache =
      setAssoc k { data := d, timestamp := now } st.responseCache := rfl

/-- A 200 GET response is stored in the cache by the success interceptor. -/
theorem successHandler_cache_get (st : DispState) (ep ck : String) (now : Nat) (d : Payload) :
    (successHandler st "GET" ep ck now d 200).state.responseCache =
      setAssoc ck { data := d, timestamp := now } st.responseCache := by
  unfold successHandler
  dsimp only
  split
  · rw [setWindow_responseCache, if_pos ⟨rfl, rfl⟩, cacheResponse_responseCache,
        setBreaker_responseCache, ensureBreaker_responseCache]
  · rw [if_pos ⟨rfl, rfl⟩, cacheResponse_responseCache,
        setBreaker_responseCache, ensureBreaker_responseCache]

/-- Claim C4, counterexample to the claim as stated: the first attempt on
GET /data fails with 500, the first retry succeeds with 200.  The caller
receives the retried success, yet the breaker records a failure (count 1,
no lastSuccessTime) and nothing is cached: a success produced by a retry
is returned straight from the error interceptor and bypasses the success
interceptor. -/
theorem c4_counterexample :
    (dispatch {} "GET" "/data" 0 c4net).outcome =
      .resolved .retry { data := { body := 9 }, status := some 200, statusText := none } ∧
    (dispatch {} "GET" "/data" 0 c4net).state.circuitBreakers =
      [("/data", { bstate := .CLOSED, failureCount := 1, lastFailureTime := some 0,
                   lastSuccessTime := none })] ∧
    (dispatch {} "GET" "/data" 0 c4net).state.responseCache = [] := by
  decide

/-- Claim C4 (amended): only a success on the first network attempt
records the success — for a CLOSED breaker the failure count is zeroed,
lastSuccessTime is stamped and a 200 GET payload is cached under the
method:path key.  A success produced by a retry is returned to the caller
but records nothing: the cache is untouched and the breaker keeps the
failure increment of the initial 5xx error (no success stamp). -/
theorem c4_amended (st : DispState) (ep : String) (now : Nat) (netA netB : Nat → NetResult)
    (b : Breaker) (d : Payload)
    (hb : getAssoc ep st.circuitBreakers = some b)
    (hcl : b.bstate = .CLOSED)
    (hreq : (requestInterceptor st "GET" ep now).2 = .proceed)
    (hA : netA 0 = .ok d 200)
    (hB0 : netB 0 = .fail (some 500) true)
    (hB1 : netB 1 = .ok d 200)
    (hfc : b.failureCount + 1 < CIRCUIT_BREAKER_THRESHOLD) :
    ((dispatch st "GET" ep now netA).outcome
        = .resolved .network { data := d, status := some 200, statusText := none } ∧
      getAssoc ep (dispatch st "GET" ep now netA).state.circuitBreakers
        = some { b with failureCount := 0, lastSuccessTime := some now } ∧
      getAssoc ("GET" ++ ":" ++ ep) (dispatch st "GET" ep now netA).state.responseCache
        = some { data := d, timestamp := now }) ∧
    ((dispatch st "GET" ep now netB).outcome
        = .resolved .retry { data := d, status := some 200, statusText := none } ∧
      (dispatch st "GET" ep now netB).state.responseCache = st.responseCache ∧
      getAssoc ep (dispatch st "GET" ep now netB).state.circuitBreakers
        = some { b with failureCount := b.failureCount + 1, lastFailureTime := some now }) := by
  have ho : b.bstate ≠ .OPEN := by simp [hcl]
  have hbrs : (requestInterceptor st "GET" ep now).1.circuitBreakers = st.circuitBreakers :=
    requestInterceptor_breakers_not_open st "GET" ep now b hb ho
  have hcch : (requestInterceptor st "GET" ep now).1.responseCache = st.responseCache :=
    requestInterceptor_responseCache st "GET" ep now
  rcases hri : requestInterceptor st "GET" ep now with ⟨st1, r⟩
  rw [hri] at hreq hbrs hcch
  dsimp only at hreq hbrs hcch
  subst hreq
  have hb1 : getAssoc ep st1.circuitBreakers = some b := by
    rw [hbrs]
    exact hb
  have hens1 : ensureBreaker st1 ep = st1 := ensureBreaker_of_some _ _ _ hb1
  have hbo1 : breakerOf st1 ep = b := by
    unfold breakerOf
    rw [hb1]
    rfl
  constructor
  · -- success on the first attempt: recorded and cached
    unfold dispatch
    rw [hri]
    dsimp only
    unfold networkPhase
    rw [hA]
    dsimp only
    refine ⟨rfl, ?_, ?_⟩
    · rw [successHandler_breakers, hens1, hbo1, getAssoc_setAssoc_self]
      simp [hcl]
    · rw [successHandler_cache_get, getAssoc_setAssoc_self]
  · -- success on a retry: returned but recorded nowhere
    have hrr : retryRequest netB = (.ok d 200, 1) := by
      unfold retryRequest
      rw [show RETRY_ATTEMPTS = 2 + 1 from rfl]
      unfold retryRequestAux
      rw [hB1]
    unfold dispatch
    rw [hri]
    dsimp only
    unfold networkPhase
    rw [hB0]
    dsimp only
    unfold errorHandler
    dsimp only
    split
    · rw [hrr]
      dsimp only
      refine ⟨rfl, ?_, ?_⟩
      · split
        · rw [setBreaker_responseCache, ensureBreaker_responseCache]
          exact hcch
        · rw [ensureBreaker_responseCache]
          exact hcch
      · split
        · rw [hens1, hbo1, setBreaker_circuitBreakers, getAssoc_setAssoc_self]
          have hnthr : ¬ (CIRCUIT_BREAKER_THRESHOLD ≤ b.failureCount + 1) := by omega
          simp [hnthr]
        · rename_i hcond
          exact absurd (by decide) hcond
    · rename_i h5f
      exact absurd (by decide) h5f

theorem c4_amended_witness :
    ((dispatch c4stw "GET" "/data" 5 c4netA).outcome
        = .resolved .network { data := { body := 9 }, status := some 200, statusText := none } ∧
      getAssoc "/data" (dispatch c4stw "GET" "/data" 5 c4netA).state.circuitBreakers
        = some { initialBreaker with failureCount := 0, lastSuccessTime := some 5 } ∧
      getAssoc ("GET" ++ ":" ++ "/data") (dispatch c4stw "GET" "/data" 5 c4netA).state.responseCache
        = some { data := { body := 9 }, timestamp := 5 }) ∧
    ((dispatch c4stw "GET" "/data" 5 c4net).outcome
        = .resolved .retry { data := { body := 9 }, status := some 200, statusText := none } ∧
      (dispatch c4stw "GET" "/data" 5 c4net).state.responseCache = c4stw.responseCache ∧
      getAssoc "/data" (dispatch c4stw "GET" "/data" 5 c4net).state.circuitBreakers
        = some { initialBreaker with
                   failureCount := initialBreaker.failureCount + 1,
                   lastFailureTime := some 5 }) :=
  c4_amended c4stw "/data" 5 c4netA c4net initialBreaker { body := 9 }
    (by decide) (by decide) (by decide) rfl rfl rfl (by decide)

/-- Claim C6, counterexample to the claim as stated: after ten rapid GET
/nope calls (each failing with 404, so nothing is cached and no
lastResponse is recorded), the eleventh call inside the same one-second
window is throttled and, with no cache entry and no lastResponsePayload,
is rejected through an axios.Cancel — it is not resolved from generic
fallback data, and it does surface as a plain rejection. -/
theorem c6_counterexample :
    (dispatch (runSeq {} (List.replicate 10 ("GET", "/nope", 5, net404)))
        "GET" "/nope" 5 net404).outcome = .rejected cancelErr ∧
    (dispatch (runSeq {} (List.replicate 10 ("GET", "/nope", 5, net404)))
        "GET" "/nope" 5 net404).netCalls = 0 := by
  decide

/-- Claim C6 (amended): a request beyond the tenth inside a one-second
window is not sent to the network; it resolves from the response cache if
a valid entry exists, otherwise from the lastResponsePayload of the window
if one was recorded, and otherwise it is rejected with a cancellation
error — generic fallback data is never consulted for throttled calls. -/
theorem c6_amended (st : DispState) (m ep : String) (now : Nat) (net : Nat → NetResult)
    (w : Window) (b : Breaker)
    (hw : getAssoc ep st.recentCalls = some w)
    (hin : now - w.time < THROTTLE_WINDOW)
    (hcnt : MAX_CALLS_PER_WINDOW ≤ w.count)
    (hb : getAssoc ep st.circuitBreakers = some b)
    (ho : b.bstate ≠ .OPEN) :
    (dispatch st m ep now net).netCalls = 0 ∧
    (dispatch st m ep now net).outcome =
      (match getCachedResponse st (m ++ ":" ++ ep) now with
       | some p => Outcome.resolved .throttleCached
           { data := p, status := some 200, statusText := some "OK (Cached)" }
       | none =>
         match w.lastResponse with
         | some lr => Outcome.resolved .throttleLast
             { data := lr, status := some 200, statusText := some "OK (Throttled Cache)" }
         | none => Outcome.rejected cancelErr) := by
  have hbo : breakerOf st ep = b := by simp [breakerOf, hb]
  have hens : ensureBreaker st ep = st := ensureBreaker_of_some st ep b hb
  have hmax : MAX_CALLS_PER_WINDOW < w.count + 1 := by omega
  cases hc : getCachedResponse st (m ++ ":" ++ ep) now with
  | some p =>
    have hreqEq : requestInterceptor st m ep now =
        (setWindow st ep { w with count := w.count + 1 },
         .mock .throttleCached { data := p, status := some 200,
                                 statusText := some "OK (Cached)" }) := by
      unfold requestInterceptor
      dsimp only
      rw [hbo, hens, if_neg (fun hcon => ho hcon.1), if_neg ho]
      unfold throttlePhase
      rw [hw]
      dsimp only
      rw [if_pos hin, if_pos hmax,
          getCachedResponse_eq_of_cache _ _ (setWindow_responseCache st ep _), hc]
    unfold dispatch
    rw [hreqEq]
    exact ⟨rfl, rfl⟩
  | none =>
    cases hl : w.lastResponse with
    | some lr =>
      have hreqEq : requestInterceptor st m ep now =
          (setWindow st ep { w with count := w.count + 1 },
           .mock .throttleLast { data := lr, status := some 200,
                                 statusText := some "OK (Throttled Cache)" }) := by
        unfold requestInterceptor
        dsimp only
        rw [hbo, hens, if_neg (fun hcon => ho hcon.1), if_neg ho]
        unfold throttlePhase
        rw [hw]
        dsimp only
        rw [if_pos hin, if_pos hmax,
            getCachedResponse_eq_of_cache _ _ (setWindow_responseCache st ep _), hc]
        dsimp only
        rw [hl]
      unfold dispatch
      rw [hreqEq]
      exact ⟨rfl, rfl⟩
    | none =>
      have hreqEq : requestInterceptor st m ep now =
          (setWindow st ep { w with count := w.count + 1 }, .cancel) := by
        unfold requestInterceptor
        dsimp only
        rw [hbo, hens, if_neg (fun hcon => ho hcon.1), if_neg ho]
        unfold throttlePhase
        rw [hw]
        dsimp only
        rw [if_pos hin, if_pos hmax,
            getCachedResponse_eq_of_cache _ _ (setWindow_responseCache st ep _), hc]
        dsimp only
        rw [hl]
      unfold dispatch
      rw [hreqEq]
      exact ⟨rfl, rfl⟩

theorem c6_amended_witness :
    (dispatch c6st "GET" "/expenses" 500 c5net).netCalls = 0 ∧
    (dispatch c6st "GET" "/expenses" 500 c5net).outcome =
      (match getCachedResponse c6st ("GET" ++ ":" ++ "/expenses") 500 with
       | some p => Outcome.resolved .throttleCached
           { data := p, status := some 200, statusText := some "OK (Cached)" }
       | none =>
         match (Window.mk 0 10 (some { body := 8 })).lastResponse with
         | some lr => Outcome.resolved .throttleLast
             { data := lr, status := some 200, statusText := some "OK (Throttled Cache)" }
         | none => Outcome.rejected cancelErr) :=
  c6_amended c6st "GET" "/expenses" 500 c5net
    { time := 0, count := 10, lastResponse := some { body := 8 } } initialBreaker
    (by decide) (by decide) (by decide) (by decide) (by decide)

/-- Claim C7, counterexample to the claim as stated: a failing GET
/expenses followed by a failing POST /expenses leaves a single breaker
entry and a single throttle window, both keyed by the bare path and with
the two failures accumulated together (failureCount 2, count 2) — the
methods do not get distinct per-endpoint state. -/
theorem c7_counterexample :
    ((dispatch (dispatch {} "GET" "/expenses" 0 net500).state
        "POST" "/expenses" 0 net500).state).circuitBreakers
      = [("/expenses", { bstate := .CLOSED, failureCount := 2, lastFailureTime := some 0,
                         lastSuccessTime := none })] ∧
    ((dispatch (dispatch {} "GET" "/expenses" 0 net500).state
        "POST" "/expenses" 0 net500).state).recentCalls
      = [("/expenses", { time := 0, count := 2, lastResponse := none })] := by
  decide

/-- Claim C7 (amended): breaker and throttle state are keyed by the URL
path alone — the state effects of the request interceptor are identical
for any two HTTP methods; only the response cache uses a method-qualified
key (method:path). -/
theorem c7_amended (st : DispState) (m1 m2 ep : String) (now : Nat) :
    (requestInterceptor st m1 ep now).1 = (requestInterceptor st m2 ep now).1 := by
  unfold requestInterceptor
  dsimp only
  split
  · cases h1 : getCachedResponse (ensureBreaker st ep) (m1 ++ ":" ++ ep) now <;>
      cases h2 : getCachedResponse (ensureBreaker st ep) (m2 ++ ":" ++ ep) now <;>
      simp [h1, h2]
  · set st2x := (if (breakerOf st ep).bstate = CircuitSt.OPEN then
        setBreaker (ensureBreaker st ep) ep { breakerOf st ep with bstate := CircuitSt.HALF_OPEN }
      else ensureBreaker st ep) with hst2x
    have hthr := throttlePhase_fst_ck st2x ep (m1 ++ ":" ++ ep) (m2 ++ ":" ++ ep) now
    cases h1 : (throttlePhase st2x ep (m1 ++ ":" ++ ep) now).2 <;>
      cases h2 : (throttlePhase st2x ep (m2 ++ ":" ++ ep) now).2 <;>
      simp [h1, h2, hthr, apply_ite]

/-- Claim C9, counterexample to the claim as stated: a successful GET /a
inside an open throttle window mutates all three stores in one dispatch —
the breaker (failure count zeroed, lastSuccessTime stamped), the throttle
window (count bumped, lastResponse recorded) and the response cache (the
200 payload stored). -/
theorem c9_counterexample :
    (dispatch c9st "GET" "/a" 500 c9net).state.circuitBreakers ≠ c9st.circuitBreakers ∧
    (dispatch c9st "GET" "/a" 500 c9net).state.recentCalls ≠ c9st.recentCalls ∧
    (dispatch c9st "GET" "/a" 500 c9net).state.responseCache ≠ c9st.responseCache := by
  decide

/-- Claim C9 (amended): the at-most-one-store property holds only for the
short-circuited (no network) paths.  Whenever the breaker entry exists and
is not ripe for the OPEN to HALF_OPEN transition (it is not OPEN, or it is
OPEN with the cooldown still running), a dispatch the request interceptor
short-circuits — the breaker-OPEN substitution, a throttled resolution or
cancel, or the deprecated endpoint — leaves the breaker store and the
response cache untouched and makes no network call, so at most the
throttle window changes.  The live success path of a GET mutates all
three stores (see c9_counterexample). -/
theorem c9_amended (st : DispState) (m ep : String) (now : Nat) (net : Nat → NetResult)
    (b : Breaker)
    (hb : getAssoc ep st.circuitBreakers = some b)
    (ho : b.bstate = .OPEN → shouldAttemptReset b now = false)
    (hreq : (requestInterceptor st m ep now).2 ≠ .proceed) :
    (dispatch st m ep now net).state.circuitBreakers = st.circuitBreakers ∧
    (dispatch st m ep now net).state.responseCache = st.responseCache ∧
    (dispatch st m ep now net).netCalls = 0 := by
  by_cases hop : b.bstate = .OPEN
  · -- the breaker-OPEN substitution path: nothing at all is written
    have hbo : breakerOf st ep = b := by simp [breakerOf, hb]
    have hens : ensureBreaker st ep = st := ensureBreaker_of_some st ep b hb
    unfold dispatch requestInterceptor
    dsimp only
    rw [hbo, hens, if_pos ⟨hop, ho hop⟩]
    cases hc : getCachedResponse st (m ++ ":" ++ ep) now <;> exact ⟨rfl, rfl, rfl⟩
  · -- the throttled, cancelled and deprecated short circuits
    have hbrs : (requestInterceptor st m ep now).1.circuitBreakers = st.circuitBreakers :=
      requestInterceptor_breakers_not_open st m ep now b hb hop
    have hcch : (requestInterceptor st m ep now).1.responseCache = st.responseCache :=
      requestInterceptor_responseCache st m ep now
    rcases hri : requestInterceptor st m ep now with ⟨st1, r⟩
    rw [hri] at hreq hbrs hcch
    dsimp only at hreq hbrs hcch
    unfold dispatch
    rw [hri]
    dsimp only
    cases r with
    | mock o rr => exact ⟨hbrs, hcch, rfl⟩
    | cancel => exact ⟨hbrs, hcch, rfl⟩
    | proceed => exact absurd rfl hreq

theorem c9_amended_witness :
    ((dispatch c5st "GET" "/settings" 2000 c5net).state.circuitBreakers
        = c5st.circuitBreakers ∧
      (dispatch c5st "GET" "/settings" 2000 c5net).state.responseCache
        = c5st.responseCache ∧
      (dispatch c5st "GET" "/settings" 2000 c5net).netCalls = 0) ∧
    ((dispatch c6st "GET" "/expenses" 500 c5net).state.circuitBreakers
        = c6st.circuitBreakers ∧
      (dispatch c6st "GET" "/expenses" 500 c5net).state.responseCache
        = c6st.responseCache ∧
      (dispatch c6st "GET" "/expenses" 500 c5net).netCalls = 0) :=
  ⟨c9_amended c5st "GET" "/settings" 2000 c5net
      { bstate := .OPEN, failureCount := 5, lastFailureTime := some 1000,
        lastSuccessTime := none }
      (by decide) (by decide) (by decide),
   c9_amended c6st "GET" "/expenses" 500 c5net initialBreaker
      (by decide) (by decide) (by decide)⟩

/-- Claim C10, counterexample to the claim as stated: ten rapid calls to
the deprecated /settings/defaults endpoint (each resolved by the built-in
mock, so nothing is cached and no lastResponse is recorded) fill the
throttle window; the eleventh call inside the same second is throttled
before the deprecated-endpoint check is reached and is rejected with a
cancellation error instead of the fixed payload. -/
theorem c10_counterexample :
    (dispatch (runSeq {} (List.replicate 10 ("GET", "/settings/defaults", 5, netU)))
        "GET" "/settings/defaults" 5 netU).outcome = .rejected cancelErr ∧
    (dispatch (runSeq {} (List.replicate 10 ("GET", "/settings/defaults", 5, netU)))
        "GET" "/settings/defaults" 5 netU).netCalls = 0 := by
  decide

/-- Claim C10 (amended): a request for /settings/defaults that is not
short-circuited earlier — breaker not OPEN and throttle limit not
exceeded — resolves, for every method, with the fixed deprecated payload
and no network call.  An OPEN breaker or an exhausted throttle window
takes precedence over the deprecated-endpoint check (see
c10_counterexample). -/
theorem c10_amended (st : DispState) (m : String) (now : Nat) (net : Nat → NetResult)
    (ho : (breakerOf st "/settings/defaults").bstate ≠ .OPEN)
    (hthr : windowAdmits st "/settings/defaults" now = true) :
    (dispatch st m "/settings/defaults" now net).outcome =
      .resolved .deprecated { data := deprecatedPayload, status := none, statusText := none } ∧
    (dispatch st m "/settings/defaults" now net).netCalls = 0 := by
  unfold dispatch requestInterceptor
  dsimp only
  rw [if_neg (fun hcon => ho hcon.1), if_neg ho]
  unfold throttlePhase
  rw [ensureBreaker_recentCalls]
  cases hwm : getAssoc "/settings/defaults" st.recentCalls with
  | none =>
    dsimp only
    rw [if_pos rfl]
    exact ⟨rfl, rfl⟩
  | some w =>
    unfold windowAdmits at hthr
    rw [hwm] at hthr
    simp only [Bool.or_eq_true, decide_eq_true_eq] at hthr
    dsimp only
    by_cases hin : now - w.time < THROTTLE_WINDOW
    · rw [if_pos hin]
      have hle : w.count + 1 ≤ MAX_CALLS_PER_WINDOW := by
        rcases hthr with h | h
        · omega
        · exact h
      rw [if_neg (by omega : ¬ MAX_CALLS_PER_WINDOW < w.count + 1)]
      dsimp only
      rw [if_pos rfl]
      exact ⟨rfl, rfl⟩
    · rw [if_neg hin]
      dsimp only
      rw [if_pos rfl]
      exact ⟨rfl, rfl⟩

theorem c10_amended_witness :
    (dispatch {} "POST" "/settings/defaults" 7 c5net).outcome =
      .resolved .deprecated { data := deprecatedPayload, status := none, statusText := none } ∧
    (dispatch {} "POST" "/settings/defaults" 7 c5net).netCalls = 0 :=
  c10_amended {} "POST" 7 c5net (by decide) (by decide)

end ApiConfig
